import Mathlib

/-!
Shallow embedding of the CelebV-Text download pipeline
(`download_and_process.py`) and of the merge helper (`merge_video.py`).

Numbers: Python float arithmetic on the small decimal constants involved is
modelled by exact rational arithmetic (`ℚ`); Python `int()` truncates toward
zero, `//` and `%` are floor division and the matching remainder, and `round`
rounds half to even.  External effects (the filesystem, `yt-dlp`, `ffmpeg`,
`rclone`) are modelled by an oracle `Env` fixing the outcome of each call, and
every effectful step is recorded as an `Event` so that theorems can speak
about which stage functions ran.
-/

/-- Python `int()` on a rational: truncation toward zero. -/
def pyInt (q : ℚ) : ℤ := if 0 ≤ q then ⌊q⌋ else ⌈q⌉

/-- Python `round()` on a rational: round half to even. -/
def pyRound (q : ℚ) : ℤ :=
  if q - (⌊q⌋ : ℚ) = 1 / 2 then (if 2 ∣ ⌊q⌋ then ⌊q⌋ else ⌊q⌋ + 1) else round q

/-- Python `"{:02d}".format(n)`: decimal digits, left padded with `0` to
width two. -/
def pad2 (n : ℤ) : String := if 0 ≤ n ∧ n < 10 then "0" ++ toString n else toString n

/-- `secs_to_timestr` from `process_ffmpeg` (`download_and_process.py`
lines 85-90): `hrs = secs // 3600`, `min = (secs - hrs * 3600) // 60`,
`sec = secs % 60`, `end = (secs - int(secs)) * 100`, formatted as
`"{:02d}:{:02d}:{:02d}.{:02d}"` of the `int()` of each component. -/
def secs_to_timestr (secs : ℚ) : String :=
  pad2 (pyInt ((⌊secs / 3600⌋ : ℤ) : ℚ)) ++ ":"
    ++ pad2 (pyInt ((⌊(secs - ((⌊secs / 3600⌋ : ℤ) : ℚ) * 3600) / 60⌋ : ℤ) : ℚ)) ++ ":"
    ++ pad2 (pyInt (secs - 60 * ((⌊secs / 60⌋ : ℤ) : ℚ))) ++ "."
    ++ pad2 (pyInt ((secs - (pyInt secs : ℚ)) * 100))

/-- `expand` from `process_ffmpeg` (lines 92-95): grow the normalized box
`(top, bottom, left, right)` by `ratio` on every side, clamped to `[0, 1]`. -/
def expand (bbox : ℚ × ℚ × ℚ × ℚ) (ratio : ℚ) : ℚ × ℚ × ℚ × ℚ :=
  (max (bbox.1 - ratio) 0, min (bbox.2.1 + ratio) 1,
   max (bbox.2.2.1 - ratio) 0, min (bbox.2.2.2 + ratio) 1)

/-- `to_square` from `process_ffmpeg` (lines 97-107): recentre the box on its
own centre with half-side `min h w / 2`. -/
def to_square (bbox : ℚ × ℚ × ℚ × ℚ) : ℚ × ℚ × ℚ × ℚ :=
  ((bbox.1 + bbox.2.1) / 2 - min (bbox.2.1 - bbox.1) (bbox.2.2.2 - bbox.2.2.1) / 2,
   (bbox.1 + bbox.2.1) / 2 + min (bbox.2.1 - bbox.1) (bbox.2.2.2 - bbox.2.2.1) / 2,
   (bbox.2.2.1 + bbox.2.2.2) / 2 - min (bbox.2.1 - bbox.1) (bbox.2.2.2 - bbox.2.2.1) / 2,
   (bbox.2.2.1 + bbox.2.2.2) / 2 + min (bbox.2.1 - bbox.1) (bbox.2.2.2 - bbox.2.2.1) / 2)

/-- `denorm` from `process_ffmpeg` (lines 109-114): scale the top/bottom
coordinates by `height`, left/right by `width`, and `round` each. -/
def denorm (bbox : ℚ × ℚ × ℚ × ℚ) (height width : ℤ) : ℤ × ℤ × ℤ × ℤ :=
  (pyRound (bbox.1 * height), pyRound (bbox.2.1 * height),
   pyRound (bbox.2.2.1 * width), pyRound (bbox.2.2.2 * width))

/-- Coordinatewise cast of an integer box back into `ℚ`. -/
def quadCast (b : ℤ × ℤ × ℤ × ℤ) : ℚ × ℚ × ℚ × ℚ :=
  ((b.1 : ℚ), (b.2.1 : ℚ), (b.2.2.1 : ℚ), (b.2.2.2 : ℚ))

/-- The crop box computed by `process_ffmpeg` (line 128):
`to_square(denorm(expand(bbox, 0.02), height, width))` — expand, then
denormalize to pixels, then square in pixel space. -/
def process_ffmpeg_crop (bbox : ℚ × ℚ × ℚ × ℚ) (height width : ℤ) : ℚ × ℚ × ℚ × ℚ :=
  to_square (quadCast (denorm (expand bbox (1 / 50)) height width))

/-- The crop box in the order the spec describes: expand, then square the
normalized box, and only then denormalize to pixels.  Stated from the spec's
words for comparison with `process_ffmpeg_crop`. -/
def spec_order_crop (bbox : ℚ × ℚ × ℚ × ℚ) (height width : ℤ) : ℤ × ℤ × ℤ × ℤ :=
  denorm (to_square (expand bbox (1 / 50))) height width

/-- One manifest record for a single output clip, as grouped by
`load_and_group_data`: output name, time range and normalized face box. -/
structure VideoData where
  save_name : String
  start_sec : ℚ
  end_sec : ℚ
  bbox : ℚ × ℚ × ℚ × ℚ

/-- Outcome oracle for the external world: filesystem state and the results
of the `yt-dlp`, `ffmpeg`, `rclone move` and `os.remove` calls. -/
structure Env where
  rawExists : Bool
  dlCmdOk : Bool
  rawExistsAfter : Bool
  ffmpegOk : VideoData → Bool
  moveOk : String → Bool
  fileAtCleanup : String → Bool
  removeOk : String → Bool

/-- Observable effectful steps of the pipeline, in execution order. -/
inductive Event where
  | downloadCmd : String → Event
  | transform : String → Option String → Event
  | moveRaw : String → Bool → Event
  | moveArtifact : String → Bool → Event
  | removeFile : String → Bool → Event
  | mark : String → Event
deriving DecidableEq

/-- In-memory state of `ThreadSafeProgress`: the completed-id set (as a
duplicate-free list) together with the lines of the backing progress file. -/
structure ThreadSafeProgress where
  completed_ytb_ids : List String
  file_lines : List String
deriving DecidableEq

/-- `ThreadSafeProgress.is_completed` (lines 190-193). -/
def ThreadSafeProgress.is_completed (st : ThreadSafeProgress) (ytb_id : String) : Bool :=
  st.completed_ytb_ids.contains ytb_id

/-- `ThreadSafeProgress.mark_completed` (lines 195-201): if the id is new,
add it to the in-memory set and append one line to the progress file;
otherwise do nothing. -/
def ThreadSafeProgress.mark_completed (st : ThreadSafeProgress) (ytb_id : String) :
    ThreadSafeProgress :=
  if ytb_id ∈ st.completed_ytb_ids then st
  else ⟨st.completed_ytb_ids ++ [ytb_id], st.file_lines ++ [ytb_id]⟩

/-- Module-level `save_progress` of `download_and_process.py` (lines
218-221): open the progress file in append mode and write one line. -/
def save_progress (file_lines : List String) (ytb_id : String) : List String :=
  file_lines ++ [ytb_id]

/-- Result of running one work unit: the returned bool, the updated progress
tracker and the list of effectful steps taken. -/
structure RunResult where
  success : Bool
  tracker : ThreadSafeProgress
  trace : List Event

/-- `os.path.join(raw_vid_root, f"{ytb_id}.mp4")` (line 286). -/
def raw_path (raw_vid_root ytb_id : String) : String :=
  raw_vid_root ++ "/" ++ ytb_id ++ ".mp4"

/-- `download` (lines 24-68): return `True` at once when the file already
exists; otherwise run the downloader and fail when the command fails or the
file is still absent afterwards.  The second component records whether the
external downloader command was invoked. -/
def download (env : Env) (video_path ytb_id : String) : Bool × List Event :=
  if env.rawExists then (true, [])
  else if env.dlCmdOk = false then (false, [Event.downloadCmd ytb_id])
  else if env.rawExistsAfter = false then (false, [Event.downloadCmd ytb_id])
  else (true, [Event.downloadCmd ytb_id])

/-- The success/output behaviour of `process_ffmpeg` (lines 71-144) for one
record: on success the artifact is `os.path.join(save_folder, save_name)`,
on any failure the result is `None`.  The external `cv2`/`ffmpeg` outcome is
the oracle `Env.ffmpegOk`. -/
def process_ffmpeg_run (env : Env) (save_folder : String) (vd : VideoData) : Option String :=
  if env.ffmpegOk vd then some (save_folder ++ "/" ++ vd.save_name) else none

/-- `move_to_dropbox` (lines 238-254): an `rclone move` whose outcome is the
oracle `Env.moveOk`. -/
def move_to_dropbox (env : Env) (file_path : String) : Bool :=
  env.moveOk file_path

/-- `cleanup_files` (lines 257-265): for each path, if the file exists try
to remove it; a removal failure is logged and swallowed. -/
def cleanup_files (env : Env) (file_paths : List String) : List Event :=
  file_paths.flatMap fun p =>
    if env.fileAtCleanup p then [Event.removeFile p (env.removeOk p)] else []

/-- `process_ytb_id` (lines 268-332): download the shared raw video; on
failure return `False` at once.  Otherwise run `process_ffmpeg` for every
record collecting the produced artifacts, move the raw file to Dropbox with
the result ignored, move each produced artifact (a failed move clears
`all_success`), clean up the raw file plus the successfully moved artifacts,
and mark the id completed exactly when `all_success` holds. -/
def process_ytb_id (env : Env) (ytb_id : String) (video_data_list : List VideoData)
    (raw_vid_root processed_vid_root : String) (progress_tracker : ThreadSafeProgress) :
    RunResult :=
  if (download env (raw_path raw_vid_root ytb_id) ytb_id).1 then
    ⟨(video_data_list.all fun vd => env.ffmpegOk vd)
       && ((video_data_list.filterMap (process_ffmpeg_run env processed_vid_root)).all
             fun p => env.moveOk p),
     if (video_data_list.all fun vd => env.ffmpegOk vd)
          && ((video_data_list.filterMap (process_ffmpeg_run env processed_vid_root)).all
                fun p => env.moveOk p) then
       progress_tracker.mark_completed ytb_id
     else progress_tracker,
     (download env (raw_path raw_vid_root ytb_id) ytb_id).2
       ++ (video_data_list.map fun vd =>
             Event.transform vd.save_name (process_ffmpeg_run env processed_vid_root vd))
       ++ [Event.moveRaw (raw_path raw_vid_root ytb_id)
             (env.moveOk (raw_path raw_vid_root ytb_id))]
       ++ ((video_data_list.filterMap (process_ffmpeg_run env processed_vid_root)).map
             fun p => Event.moveArtifact p (env.moveOk p))
       ++ cleanup_files env
            (raw_path raw_vid_root ytb_id
              :: (video_data_list.filterMap (process_ffmpeg_run env processed_vid_root)).filter
                   fun p => env.moveOk p)
       ++ (if (video_data_list.all fun vd => env.ffmpegOk vd)
                && ((video_data_list.filterMap (process_ffmpeg_run env processed_vid_root)).all
                      fun p => env.moveOk p) then
             [Event.mark ytb_id]
           else [])⟩
  else ⟨false, progress_tracker, (download env (raw_path raw_vid_root ytb_id) ytb_id).2⟩

/-- The `pending_ytb_ids` filter in `__main__` (lines 378-379): keep only
units whose group key the tracker does not list as completed. -/
def pending_ytb_ids (grouped_data : List (String × List VideoData))
    (progress_tracker : ThreadSafeProgress) : List (String × List VideoData) :=
  grouped_data.filter fun p => !(progress_tracker.is_completed p.1)

/-- The dispatch loop of `__main__` (lines 377-427): filter out completed
units, run `process_ytb_id` on each remaining unit, and report the attempted
count, the final tracker, and the key-tagged event trace. -/
def main_run (env : Env) (grouped_data : List (String × List VideoData))
    (raw_vid_root processed_vid_root : String) (progress_tracker : ThreadSafeProgress) :
    Nat × ThreadSafeProgress × List (String × Event) :=
  ((pending_ytb_ids grouped_data progress_tracker).length,
   ((pending_ytb_ids grouped_data progress_tracker).foldl
      (fun acc u =>
        ((process_ytb_id env u.1 u.2 raw_vid_root processed_vid_root acc.1).tracker,
         acc.2 ++ (process_ytb_id env u.1 u.2 raw_vid_root processed_vid_root acc.1).trace.map
                    fun e => (u.1, e)))
      (progress_tracker, ([] : List (String × Event)))).1,
   ((pending_ytb_ids grouped_data progress_tracker).foldl
      (fun acc u =>
        ((process_ytb_id env u.1 u.2 raw_vid_root processed_vid_root acc.1).tracker,
         acc.2 ++ (process_ytb_id env u.1 u.2 raw_vid_root processed_vid_root acc.1).trace.map
                    fun e => (u.1, e)))
      (progress_tracker, ([] : List (String × Event)))).2)

namespace MergeVideo

/-- Code-point comparison of character lists, modelling Python string `≤`. -/
def listCharLe : List Char → List Char → Bool
  | [], _ => true
  | _ :: _, [] => false
  | a :: as, b :: bs =>
    if a.toNat < b.toNat then true
    else if b.toNat < a.toNat then false
    else listCharLe as bs

/-- Python `≤` on strings (lexicographic by code point). -/
def strLe (a b : String) : Bool := listCharLe a.data b.data

/-- Insert a string into an already sorted list, keeping it sorted. -/
def insertSorted (x : String) : List String → List String
  | [] => [x]
  | y :: ys => if strLe x y then x :: y :: ys else y :: insertSorted x ys

/-- Python `sorted` on a list of strings (insertion sort). -/
def sortStrings (l : List String) : List String := l.foldr insertSorted []

/-- `load_progress` of `merge_video.py` (lines 41-48): the set of nonempty
lines of `progress.txt`, modelled as a duplicate-free list. -/
def load_progress (lines : List String) : List String :=
  (lines.filter fun s => !(s == "")).dedup

/-- `save_progress` of `merge_video.py` (lines 50-54): open `progress.txt`
in write mode — replacing whatever the file held — and write the sorted
elements of the completed set, one per line. -/
def save_progress (completed_files : List String) : List String :=
  sortStrings completed_files.dedup

end MergeVideo

/-- Oracle where the raw video is absent and every external call succeeds. -/
def envAllOk : Env :=
  ⟨false, true, true, fun _ => true, fun _ => true, fun _ => true, fun _ => true⟩

/-- Oracle where everything succeeds except the transform of record `u2`. -/
def envU2Fail : Env :=
  ⟨false, true, true, fun vd => vd.save_name != "u2", fun _ => true, fun _ => true,
   fun _ => true⟩

/-- Oracle where the downloader command fails. -/
def envDlFail : Env :=
  ⟨false, false, true, fun _ => true, fun _ => true, fun _ => true, fun _ => true⟩

/-- Oracle where the raw video is already on disk. -/
def envRawHave : Env :=
  ⟨true, true, true, fun _ => true, fun _ => true, fun _ => true, fun _ => true⟩

/-- Oracle where every call succeeds except the upload of artifact `proc/u2`. -/
def envMoveU2Fail : Env :=
  ⟨false, true, true, fun _ => true, fun p => p != "proc/u2", fun _ => true, fun _ => true⟩

/-- A one-record work unit used by witnesses. -/
def items1 : List VideoData := [⟨"u1", 0, 1, (0, 1, 0, 1)⟩]

/-- A three-record work unit used by witnesses. -/
def items3 : List VideoData :=
  [⟨"u1", 0, 1, (0, 1, 0, 1)⟩, ⟨"u2", 0, 1, (0, 1, 0, 1)⟩, ⟨"u3", 0, 1, (0, 1, 0, 1)⟩]

/-! ### Helper lemmas -/

theorem pyInt_intCast (k : ℤ) : pyInt (k : ℚ) = k := by
  rw [pyInt]; split_ifs <;> simp

theorem pyInt_nonneg {q : ℚ} (h : 0 ≤ q) : 0 ≤ pyInt q := by
  rw [pyInt, if_pos h]; exact Int.floor_nonneg.mpr h

theorem pyInt_lt {q : ℚ} {n : ℤ} (h0 : 0 ≤ q) (h : q < n) : pyInt q < n := by
  rw [pyInt, if_pos h0]; exact Int.floor_lt.mpr h

theorem pad2_length {n : ℤ} (h0 : 0 ≤ n) (h1 : n < 100) : (pad2 n).length = 2 := by
  have hball : ∀ m : ℕ, m < 100 → (pad2 (m : ℤ)).length = 2 := by decide
  have hm := hball n.toNat (by omega)
  rwa [Int.toNat_of_nonneg h0] at hm

/-! ### C10 -/

/-- C10: when the target video file already exists, `download` returns `True`
at once and never invokes the external downloader command. -/
theorem download_skips_existing (env : Env) (video_path ytb_id : String)
    (h : env.rawExists = true) :
    download env video_path ytb_id = (true, []) := by
  simp [download, h]

theorem download_skips_existing_witness :
    download envRawHave "raw/y.mp4" "y" = (true, []) :=
  download_skips_existing envRawHave "raw/y.mp4" "y" rfl

/-! ### C7 -/

/-- C7: when the downloader command fails, or the raw file is absent after
the call, `process_ytb_id` returns `False` with the tracker unchanged and
the only effectful step taken is the downloader invocation itself: no
transform, upload or cleanup runs for any record of the unit. -/
theorem download_failure_short_circuits (env : Env) (ytb_id : String)
    (video_data_list : List VideoData) (raw_vid_root processed_vid_root : String)
    (st : ThreadSafeProgress) (h0 : env.rawExists = false)
    (h1 : env.dlCmdOk = false ∨ env.rawExistsAfter = false) :
    (process_ytb_id env ytb_id video_data_list raw_vid_root processed_vid_root st).success
        = false
    ∧ (process_ytb_id env ytb_id video_data_list raw_vid_root processed_vid_root st).tracker
        = st
    ∧ (process_ytb_id env ytb_id video_data_list raw_vid_root processed_vid_root st).trace
        = [Event.downloadCmd ytb_id] := by
  have hdl : download env (raw_path raw_vid_root ytb_id) ytb_id
      = (false, [Event.downloadCmd ytb_id]) := by
    rcases h1 with h1 | h1 <;> simp [download, h0, h1]
  refine ⟨?_, ?_, ?_⟩ <;> simp [process_ytb_id, hdl]

theorem download_failure_short_circuits_witness :
    (process_ytb_id envDlFail "y" items3 "raw" "proc" ⟨[], []⟩).success = false
    ∧ (process_ytb_id envDlFail "y" items3 "raw" "proc" ⟨[], []⟩).tracker = ⟨[], []⟩
    ∧ (process_ytb_id envDlFail "y" items3 "raw" "proc" ⟨[], []⟩).trace
        = [Event.downloadCmd "y"] :=
  download_failure_short_circuits envDlFail "y" items3 "raw" "proc" ⟨[], []⟩ rfl (Or.inl rfl)

/-! ### C3 -/

/-- C3: marking a key twice equals marking it once; marking an
already-completed key changes neither the in-memory set nor the file; and
starting from a state that does not contain the key, two calls leave the
persisted file containing the key exactly once. -/
theorem mark_completed_idempotent (st : ThreadSafeProgress) (k : String) :
    (st.mark_completed k).mark_completed k = st.mark_completed k
    ∧ (k ∈ st.completed_ytb_ids → st.mark_completed k = st)
    ∧ (k ∉ st.completed_ytb_ids → st.file_lines.count k = 0 →
        ((st.mark_completed k).mark_completed k).file_lines.count k = 1) := by
  by_cases h : k ∈ st.completed_ytb_ids
  · refine ⟨?_, fun _ => ?_, fun hk _ => absurd h hk⟩ <;>
      simp [ThreadSafeProgress.mark_completed, h]
  · refine ⟨?_, fun hk => absurd hk h, fun _ hc => ?_⟩
    · simp [ThreadSafeProgress.mark_completed, h]
    · simp [ThreadSafeProgress.mark_completed, h, hc]

theorem mark_completed_idempotent_witness :
    ((ThreadSafeProgress.mark_completed ⟨[], []⟩ "a").mark_completed "a").file_lines.count "a"
      = 1 :=
  (mark_completed_idempotent ⟨[], []⟩ "a").2.2 (by decide) (by decide)

/-! ### C4 (corrected) -/

/-- C4 counterexample: with a prior ledger holding lines `b`, `a`,
`merge_video.save_progress` (write mode) emits `a`, `b`, `c` — the file is
rewritten in sorted order, so the previous lines are not preserved. -/
theorem merge_save_progress_rewrites :
    MergeVideo.save_progress (MergeVideo.load_progress ["b", "a"] ++ ["c"]) = ["a", "b", "c"]
    ∧ (MergeVideo.save_progress (MergeVideo.load_progress ["b", "a"] ++ ["c"])).take 2
        ≠ ["b", "a"] := by
  decide

theorem mem_insertSorted (x y : String) (l : List String) :
    y ∈ MergeVideo.insertSorted x l ↔ y = x ∨ y ∈ l := by
  induction l with
  | nil => simp [MergeVideo.insertSorted]
  | cons a as ih =>
    rw [MergeVideo.insertSorted]
    split_ifs
    · simp
    · simp [ih]
      tauto

theorem mem_sortStrings (x : String) (l : List String) :
    x ∈ MergeVideo.sortStrings l ↔ x ∈ l := by
  induction l with
  | nil => simp [MergeVideo.sortStrings]
  | cons a as ih =>
    rw [MergeVideo.sortStrings, List.foldr_cons, mem_insertSorted]
    rw [MergeVideo.sortStrings] at ih
    simp [ih]

/-- C4 amended: `ThreadSafeProgress.mark_completed` and the module-level
`save_progress` of `download_and_process.py` only ever append to the ledger,
but `merge_video.save_progress` rewrites the whole file with the sorted
completed set: it preserves the recorded keys as a set, not the existing
lines. -/
theorem ledger_write_shapes (st : ThreadSafeProgress) (k : String) (l : List String)
    (x : String) :
    (∃ t, (st.mark_completed k).file_lines = st.file_lines ++ t)
    ∧ (∃ t, save_progress st.file_lines k = st.file_lines ++ t)
    ∧ (x ∈ MergeVideo.save_progress l ↔ x ∈ l) := by
  refine ⟨?_, ⟨[k], rfl⟩, ?_⟩
  · rw [ThreadSafeProgress.mark_completed]
    split_ifs
    · exact ⟨[], by simp⟩
    · exact ⟨[k], rfl⟩
  · rw [MergeVideo.save_progress, mem_sortStrings, List.mem_dedup]

theorem ledger_write_shapes_witness :
    (∃ t, (ThreadSafeProgress.mark_completed ⟨["k0"], ["k0"]⟩ "k1").file_lines = ["k0"] ++ t)
    ∧ ("b" ∈ MergeVideo.save_progress ["b", "a"] ↔ "b" ∈ ["b", "a"]) :=
  ⟨(ledger_write_shapes ⟨["k0"], ["k0"]⟩ "k1" ["b", "a"] "b").1,
   (ledger_write_shapes ⟨["k0"], ["k0"]⟩ "k1" ["b", "a"] "b").2.2⟩

/-! ### Trace helpers for `process_ytb_id` -/

theorem mark_not_mem_download (env : Env) (p y k : String) :
    Event.mark k ∉ (download env p y).2 := by
  rw [download]; split_ifs <;> simp

theorem mark_not_mem_cleanup (env : Env) (paths : List String) (k : String) :
    Event.mark k ∉ cleanup_files env paths := by
  rw [cleanup_files]
  simp only [List.mem_flatMap, not_exists]
  intro p
  rintro ⟨hp, hmem⟩
  split_ifs at hmem <;> simp_all

theorem process_success_iff (env : Env) (ytb_id : String) (video_data_list : List VideoData)
    (raw_vid_root processed_vid_root : String) (st : ThreadSafeProgress) :
    (process_ytb_id env ytb_id video_data_list raw_vid_root processed_vid_root st).success = true
      ↔ ((download env (raw_path raw_vid_root ytb_id) ytb_id).1 = true
         ∧ (∀ vd ∈ video_data_list, env.ffmpegOk vd = true)
         ∧ (∀ p ∈ video_data_list.filterMap (process_ffmpeg_run env processed_vid_root),
              env.moveOk p = true)) := by
  by_cases hdl : (download env (raw_path raw_vid_root ytb_id) ytb_id).1 = true
  · rw [process_ytb_id, if_pos hdl]
    dsimp only
    rw [Bool.and_eq_true, List.all_eq_true, List.all_eq_true]
    constructor
    · rintro ⟨h1, h2⟩
      exact ⟨hdl, h1, h2⟩
    · rintro ⟨-, h1, h2⟩
      exact ⟨h1, h2⟩
  · rw [process_ytb_id, if_neg hdl]
    dsimp only
    constructor
    · rintro ⟨⟩
    · rintro ⟨h, -, -⟩
      exact absurd h hdl

theorem process_mark_iff_success (env : Env) (ytb_id : String)
    (video_data_list : List VideoData) (raw_vid_root processed_vid_root : String)
    (st : ThreadSafeProgress) :
    (Event.mark ytb_id
        ∈ (process_ytb_id env ytb_id video_data_list raw_vid_root processed_vid_root st).trace)
      ↔ (process_ytb_id env ytb_id video_data_list raw_vid_root processed_vid_root st).success
          = true := by
  by_cases hdl : (download env (raw_path raw_vid_root ytb_id) ytb_id).1 = true
  · rw [process_ytb_id, if_pos hdl]
    dsimp only
    cases hall : ((video_data_list.all fun vd => env.ffmpegOk vd)
        && ((video_data_list.filterMap (process_ffmpeg_run env processed_vid_root)).all
              fun p => env.moveOk p)) with
    | false =>
      simp [List.mem_append, mark_not_mem_download env _ ytb_id ytb_id,
        mark_not_mem_cleanup env _ ytb_id]
    | true =>
      simp [List.mem_append, hall]
  · rw [process_ytb_id, if_neg hdl]
    dsimp only
    simp [mark_not_mem_download env _ ytb_id ytb_id]

/-! ### C2 -/

/-- C2: the completion mark for a unit's key is emitted exactly when the
download succeeded, every record's transform produced an artifact, and every
produced artifact was moved to remote storage; and whenever the unit is
reported failed, the progress tracker — hence the persisted ledger — is left
unchanged. -/
theorem mark_completed_iff_pipeline_success (env : Env) (ytb_id : String)
    (video_data_list : List VideoData) (raw_vid_root processed_vid_root : String)
    (st : ThreadSafeProgress) :
    ((Event.mark ytb_id
        ∈ (process_ytb_id env ytb_id video_data_list raw_vid_root processed_vid_root st).trace)
      ↔ ((download env (raw_path raw_vid_root ytb_id) ytb_id).1 = true
         ∧ (∀ vd ∈ video_data_list, env.ffmpegOk vd = true)
         ∧ (∀ p ∈ video_data_list.filterMap (process_ffmpeg_run env processed_vid_root),
              env.moveOk p = true)))
    ∧ ((process_ytb_id env ytb_id video_data_list raw_vid_root processed_vid_root st).success
          = false
        → (process_ytb_id env ytb_id video_data_list raw_vid_root processed_vid_root st).tracker
            = st) := by
  constructor
  · rw [process_mark_iff_success, process_success_iff]
  · intro hfail
    by_cases hdl : (download env (raw_path raw_vid_root ytb_id) ytb_id).1 = true
    · rw [process_ytb_id, if_pos hdl] at hfail ⊢
      dsimp only at hfail ⊢
      rw [if_neg]
      rw [hfail]
      simp
    · rw [process_ytb_id, if_neg hdl]

theorem mark_completed_iff_pipeline_success_witness :
    Event.mark "y" ∈ (process_ytb_id envAllOk "y" items1 "raw" "proc" ⟨[], []⟩).trace :=
  (mark_completed_iff_pipeline_success envAllOk "y" items1 "raw" "proc" ⟨[], []⟩).1.mpr
    ⟨rfl, fun _ _ => rfl, fun _ _ => rfl⟩

/-! ### C6 -/

/-- C6: after a successful download, even when some record's transform
fails, the transform stage still runs for every record of the unit, the
upload is still attempted for every artifact that was produced, and the unit
as a whole is reported failed. -/
theorem transform_failure_isolated (env : Env) (ytb_id : String)
    (video_data_list : List VideoData) (raw_vid_root processed_vid_root : String)
    (st : ThreadSafeProgress)
    (hdl : (download env (raw_path raw_vid_root ytb_id) ytb_id).1 = true)
    (vd0 : VideoData) (hmem : vd0 ∈ video_data_list) (hfail : env.ffmpegOk vd0 = false) :
    (∀ vd ∈ video_data_list,
        Event.transform vd.save_name (process_ffmpeg_run env processed_vid_root vd)
          ∈ (process_ytb_id env ytb_id video_data_list raw_vid_root processed_vid_root st).trace)
    ∧ (∀ p ∈ video_data_list.filterMap (process_ffmpeg_run env processed_vid_root),
        Event.moveArtifact p (env.moveOk p)
          ∈ (process_ytb_id env ytb_id video_data_list raw_vid_root processed_vid_root st).trace)
    ∧ (process_ytb_id env ytb_id video_data_list raw_vid_root processed_vid_root st).success
        = false := by
  refine ⟨?_, ?_, ?_⟩
  · intro vd hvd
    rw [process_ytb_id, if_pos hdl]
    dsimp only
    simp only [List.mem_append]
    exact Or.inl (Or.inl (Or.inl (Or.inl (Or.inr (List.mem_map_of_mem _ hvd)))))
  · intro p hp
    rw [process_ytb_id, if_pos hdl]
    dsimp only
    simp only [List.mem_append]
    exact Or.inl (Or.inl (Or.inr (List.mem_map_of_mem _ hp)))
  · rw [Bool.eq_false_iff]
    intro hsucc
    have h := (process_success_iff env ytb_id video_data_list raw_vid_root
      processed_vid_root st).mp hsucc
    have hvd0 := h.2.1 vd0 hmem
    rw [hfail] at hvd0
    cases hvd0

theorem transform_failure_isolated_witness :
    (process_ytb_id envU2Fail "y" items3 "raw" "proc" ⟨[], []⟩).success = false :=
  (transform_failure_isolated envU2Fail "y" items3 "raw" "proc" ⟨[], []⟩ rfl
    ⟨"u2", 0, 1, (0, 1, 0, 1)⟩ (List.Mem.tail _ (List.Mem.head _)) rfl).2.2

/-! ### C9 -/

theorem removeFile_not_mem_download (env : Env) (p y q : String) (b : Bool) :
    Event.removeFile q b ∉ (download env p y).2 := by
  rw [download]; split_ifs <;> simp

/-- C9: once the download succeeded the cleanup stage always runs: the shared
raw file is removed (when present on disk) whether or not the unit
succeeded; an artifact whose upload failed is never removed, while an
artifact whose upload succeeded is removed; and the outcome of the removals
themselves influences neither the unit's reported result nor the tracker. -/
theorem cleanup_policy (env : Env) (ytb_id : String) (video_data_list : List VideoData)
    (raw_vid_root processed_vid_root : String) (st : ThreadSafeProgress)
    (hdl : (download env (raw_path raw_vid_root ytb_id) ytb_id).1 = true) :
    (env.fileAtCleanup (raw_path raw_vid_root ytb_id) = true →
      Event.removeFile (raw_path raw_vid_root ytb_id)
          (env.removeOk (raw_path raw_vid_root ytb_id))
        ∈ (process_ytb_id env ytb_id video_data_list raw_vid_root processed_vid_root st).trace)
    ∧ (∀ p ∈ video_data_list.filterMap (process_ffmpeg_run env processed_vid_root),
        env.moveOk p = false → p ≠ raw_path raw_vid_root ytb_id →
        ∀ b : Bool, Event.removeFile p b
          ∉ (process_ytb_id env ytb_id video_data_list raw_vid_root processed_vid_root st).trace)
    ∧ (∀ p ∈ video_data_list.filterMap (process_ffmpeg_run env processed_vid_root),
        env.moveOk p = true → env.fileAtCleanup p = true →
        Event.removeFile p (env.removeOk p)
          ∈ (process_ytb_id env ytb_id video_data_list raw_vid_root processed_vid_root st).trace)
    ∧ (∀ f : String → Bool,
        (process_ytb_id ⟨env.rawExists, env.dlCmdOk, env.rawExistsAfter, env.ffmpegOk,
            env.moveOk, env.fileAtCleanup, f⟩ ytb_id video_data_list raw_vid_root
            processed_vid_root st).success
          = (process_ytb_id env ytb_id video_data_list raw_vid_root processed_vid_root st).success
        ∧ (process_ytb_id ⟨env.rawExists, env.dlCmdOk, env.rawExistsAfter, env.ffmpegOk,
            env.moveOk, env.fileAtCleanup, f⟩ ytb_id video_data_list raw_vid_root
            processed_vid_root st).tracker
          = (process_ytb_id env ytb_id video_data_list raw_vid_root
              processed_vid_root st).tracker) := by
  refine ⟨?_, ?_, ?_, fun f => ?_⟩
  · intro hfc
    rw [process_ytb_id, if_pos hdl]
    dsimp only
    simp only [List.mem_append]
    refine Or.inl (Or.inr ?_)
    rw [cleanup_files]
    refine List.mem_flatMap.mpr ⟨raw_path raw_vid_root ytb_id, List.mem_cons_self _ _, ?_⟩
    rw [if_pos hfc]
    exact List.mem_singleton.mpr rfl
  · intro p hp hmv hne b
    rw [process_ytb_id, if_pos hdl]
    dsimp only
    intro hmem
    simp only [List.mem_append] at hmem
    rcases hmem with ((((h1 | h2) | h3) | h4) | h5) | h6
    · exact removeFile_not_mem_download env _ ytb_id p b h1
    · rcases List.mem_map.mp h2 with ⟨vd, -, hEq⟩
      simp at hEq
    · simp at h3
    · rcases List.mem_map.mp h4 with ⟨q, -, hEq⟩
      simp at hEq
    · rw [cleanup_files] at h5
      rcases List.mem_flatMap.mp h5 with ⟨q, hq, hin⟩
      by_cases hc : env.fileAtCleanup q = true
      · rw [if_pos hc] at hin
        have hEq := List.mem_singleton.mp hin
        injection hEq with hpq hb
        subst hpq
        rcases List.mem_cons.mp hq with hq2 | hq2
        · exact hne hq2
        · have := (List.mem_filter.mp hq2).2
          rw [hmv] at this
          cases this
      · rw [if_neg hc] at hin
        cases hin
    · split_ifs at h6 <;> simp_all
  · intro p hp hmv hfc
    rw [process_ytb_id, if_pos hdl]
    dsimp only
    simp only [List.mem_append]
    refine Or.inl (Or.inr ?_)
    rw [cleanup_files]
    refine List.mem_flatMap.mpr ⟨p, List.mem_cons_of_mem _ (List.mem_filter.mpr ⟨hp, ?_⟩), ?_⟩
    · rw [hmv]
    · rw [if_pos hfc]
      exact List.mem_singleton.mpr rfl
  · have hdl2 : (download ⟨env.rawExists, env.dlCmdOk, env.rawExistsAfter, env.ffmpegOk,
        env.moveOk, env.fileAtCleanup, f⟩ (raw_path raw_vid_root ytb_id) ytb_id).1
        = true := hdl
    rw [process_ytb_id, process_ytb_id, if_pos hdl2, if_pos hdl]
    exact ⟨rfl, rfl⟩

theorem cleanup_policy_witness :
    Event.removeFile "raw/y.mp4" true
      ∈ (process_ytb_id envMoveU2Fail "y" items3 "raw" "proc" ⟨[], []⟩).trace :=
  (cleanup_policy envMoveU2Fail "y" items3 "raw" "proc" ⟨[], []⟩ rfl).1 rfl

/-! ### C8 -/

theorem main_run_fold_keys (env : Env) (raw_vid_root processed_vid_root : String) :
    ∀ (l : List (String × List VideoData)) (acc : ThreadSafeProgress × List (String × Event))
      (k : String) (e : Event),
      (k, e) ∈ (l.foldl
          (fun acc u =>
            ((process_ytb_id env u.1 u.2 raw_vid_root processed_vid_root acc.1).tracker,
             acc.2 ++ (process_ytb_id env u.1 u.2 raw_vid_root processed_vid_root
                        acc.1).trace.map fun e => (u.1, e))) acc).2
      → (k, e) ∈ acc.2 ∨ ∃ items : List VideoData, (k, items) ∈ l := by
  intro l
  induction l with
  | nil => exact fun acc k e h => Or.inl h
  | cons u us ih =>
    intro acc k e h
    rw [List.foldl_cons] at h
    rcases ih _ k e h with hin | ⟨items, hitems⟩
    · rcases List.mem_append.mp hin with hin2 | hin2
      · exact Or.inl hin2
      · rcases List.mem_map.mp hin2 with ⟨e2, -, hEq⟩
        cases hEq
        exact Or.inr ⟨u.2, List.mem_cons_self u us⟩
    · exact Or.inr ⟨items, List.mem_cons_of_mem u hitems⟩

/-- C8: a work unit whose group key the loaded ledger lists as completed is
filtered out before dispatch — it is not in the pending list counted as
attempted and no stage event is ever emitted for its key — and when every
unit's key is already completed the whole run attempts 0 units, leaves the
tracker untouched and emits no event at all. -/
theorem completed_units_skipped (env : Env) (grouped_data : List (String × List VideoData))
    (raw_vid_root processed_vid_root : String) (st : ThreadSafeProgress) :
    (∀ k : String, st.is_completed k = true →
      (∀ items : List VideoData, (k, items) ∉ pending_ytb_ids grouped_data st)
      ∧ (∀ e : Event,
          (k, e) ∉ (main_run env grouped_data raw_vid_root processed_vid_root st).2.2))
    ∧ ((∀ u ∈ grouped_data, st.is_completed u.1 = true) →
        main_run env grouped_data raw_vid_root processed_vid_root st = (0, st, [])) := by
  constructor
  · intro k hk
    constructor
    · intro items hmem
      have hfilter := (List.mem_filter.mp hmem).2
      rw [show ((k, items) : String × List VideoData).1 = k from rfl, hk] at hfilter
      cases hfilter
    · intro e hmem
      dsimp only [main_run] at hmem
      rcases main_run_fold_keys env raw_vid_root processed_vid_root _ _ k e hmem with
        h | ⟨items, hitems⟩
      · cases h
      · have hfilter := (List.mem_filter.mp hitems).2
        rw [show ((k, items) : String × List VideoData).1 = k from rfl, hk] at hfilter
        cases hfilter
  · intro hall
    have hpend : pending_ytb_ids grouped_data st = [] := by
      rw [pending_ytb_ids, List.filter_eq_nil_iff]
      intro u hu
      rw [hall u hu]
      simp
    rw [main_run, hpend]
    rfl

theorem completed_units_skipped_witness :
    main_run envAllOk [("a", items1)] "raw" "proc" ⟨["a"], ["a"]⟩ = (0, ⟨["a"], ["a"]⟩, []) :=
  (completed_units_skipped envAllOk [("a", items1)] "raw" "proc" ⟨["a"], ["a"]⟩).2 (by decide)

/-! ### C5 -/

/-- C5: for any nonnegative duration below 100 hours the formatted timestamp
has the fixed width `HH:MM:SS.hh` (11 characters), and in particular 90.25
seconds formats as `00:01:30.25` and 3661.0 seconds as `01:01:01.00`. -/
theorem secs_to_timestr_format (secs : ℚ) (h0 : 0 ≤ secs) (h1 : secs < 360000) :
    (secs_to_timestr secs).length = 11
    ∧ secs_to_timestr 90.25 = "00:01:30.25"
    ∧ secs_to_timestr 3661 = "01:01:01.00" := by
  refine ⟨?_, ?_, ?_⟩
  · rw [secs_to_timestr, pyInt_intCast, pyInt_intCast]
    have h3600 : (0:ℚ) < 3600 := by norm_num
    have h60 : (0:ℚ) < 60 := by norm_num
    have hA0 : (0:ℤ) ≤ ⌊secs / 3600⌋ := Int.floor_nonneg.mpr (div_nonneg h0 (le_of_lt h3600))
    have hA1 : ⌊secs / 3600⌋ < 100 :=
      Int.floor_lt.mpr (by rw [div_lt_iff₀ h3600]; push_cast; linarith)
    have hfl1 := Int.floor_le (secs / 3600)
    have hfl2 := Int.lt_floor_add_one (secs / 3600)
    have hdiv1 : secs / 3600 * 3600 = secs := by field_simp
    have hra : ((⌊secs / 3600⌋ : ℤ) : ℚ) * 3600 ≤ secs := by nlinarith
    have hrb : secs - ((⌊secs / 3600⌋ : ℤ) : ℚ) * 3600 < 3600 := by nlinarith
    have hB0 : (0:ℤ) ≤ ⌊(secs - ((⌊secs / 3600⌋ : ℤ) : ℚ) * 3600) / 60⌋ :=
      Int.floor_nonneg.mpr (div_nonneg (by linarith) (le_of_lt h60))
    have hB1 : ⌊(secs - ((⌊secs / 3600⌋ : ℤ) : ℚ) * 3600) / 60⌋ < 60 :=
      Int.floor_lt.mpr (by rw [div_lt_iff₀ h60]; push_cast; linarith)
    have hfl3 := Int.floor_le (secs / 60)
    have hfl4 := Int.lt_floor_add_one (secs / 60)
    have hdiv2 : secs / 60 * 60 = secs := by field_simp
    have hsc0 : (0:ℚ) ≤ secs - 60 * ((⌊secs / 60⌋ : ℤ) : ℚ) := by nlinarith
    have hsc1 : secs - 60 * ((⌊secs / 60⌋ : ℤ) : ℚ) < 60 := by nlinarith
    have hfl5 := Int.floor_le secs
    have hfl6 := Int.lt_floor_add_one secs
    have hfr0 : (0:ℚ) ≤ (secs - (pyInt secs : ℚ)) * 100 := by
      rw [pyInt, if_pos h0]; nlinarith
    have hfr1 : (secs - (pyInt secs : ℚ)) * 100 < 100 := by
      rw [pyInt, if_pos h0]; nlinarith
    have l1 : (pad2 ⌊secs / 3600⌋).length = 2 := pad2_length hA0 hA1
    have l2 : (pad2 ⌊(secs - ((⌊secs / 3600⌋ : ℤ) : ℚ) * 3600) / 60⌋).length = 2 :=
      pad2_length hB0 (by omega)
    have l3 : (pad2 (pyInt (secs - 60 * ((⌊secs / 60⌋ : ℤ) : ℚ)))).length = 2 :=
      pad2_length (pyInt_nonneg hsc0) (pyInt_lt hsc0 (by push_cast; linarith))
    have l4 : (pad2 (pyInt ((secs - (pyInt secs : ℚ)) * 100))).length = 2 :=
      pad2_length (pyInt_nonneg hfr0) (pyInt_lt hfr0 (by exact_mod_cast hfr1))
    simp only [String.length_append, l1, l2, l3, l4,
      show (":" : String).length = 1 from rfl, show ("." : String).length = 1 from rfl]
  · norm_num [secs_to_timestr, pyInt, pad2]
    decide
  · norm_num [secs_to_timestr, pyInt, pad2]
    decide

theorem secs_to_timestr_format_witness :
    (secs_to_timestr 3661).length = 11 :=
  (secs_to_timestr_format 3661 (by simp) (by norm_num)).1

/-! ### C1 (corrected) -/

/-- C1 counterexample: on the spec's own example — region
`(0.4, 0.6, 0.3, 0.5)`, a 1000×2000 frame, margin 0.02 — the code's
expand→denormalize→square order yields the pixel box `(380, 620, 680, 920)`,
while the spec's claimed expand→square→denormalize order yields
`(380, 620, 560, 1040)`; the two disagree, so the crop is not computed in
the claimed order. -/
theorem crop_order_counterexample :
    process_ffmpeg_crop (2 / 5, 3 / 5, 3 / 10, 1 / 2) 1000 2000 = (380, 620, 680, 920)
    ∧ spec_order_crop (2 / 5, 3 / 5, 3 / 10, 1 / 2) 1000 2000 = (380, 620, 560, 1040)
    ∧ process_ffmpeg_crop (2 / 5, 3 / 5, 3 / 10, 1 / 2) 1000 2000
        ≠ quadCast (spec_order_crop (2 / 5, 3 / 5, 3 / 10, 1 / 2) 1000 2000) := by
  have h1 : process_ffmpeg_crop (2 / 5, 3 / 5, 3 / 10, 1 / 2) 1000 2000
      = (380, 620, 680, 920) := by
    norm_num [process_ffmpeg_crop, expand, to_square, denorm, quadCast, pyRound, round_eq]
  have h2 : spec_order_crop (2 / 5, 3 / 5, 3 / 10, 1 / 2) 1000 2000
      = (380, 620, 560, 1040) := by
    norm_num [spec_order_crop, expand, to_square, denorm, pyRound, round_eq]
  refine ⟨h1, h2, ?_⟩
  rw [h1, h2]
  norm_num [quadCast, Prod.ext_iff]

/-- C1 amended: `process_ffmpeg` computes the crop by expanding the
normalized region by the fixed margin 0.02 clamped to `[0, 1]`, then
denormalizing to pixel coordinates with rounding, and only then squaring —
in pixel space — on the denormalized box's own centre; the result is a pure
function of the inputs (hence deterministic), its height span equals its
width span, and that common side equals the smaller of the denormalized
box's height/width spans. -/
theorem crop_region_code_order (bbox : ℚ × ℚ × ℚ × ℚ) (height width : ℤ) :
    process_ffmpeg_crop bbox height width
      = to_square (quadCast (denorm (expand bbox (1 / 50)) height width))
    ∧ (process_ffmpeg_crop bbox height width).2.1 - (process_ffmpeg_crop bbox height width).1
      = (process_ffmpeg_crop bbox height width).2.2.2
          - (process_ffmpeg_crop bbox height width).2.2.1
    ∧ (process_ffmpeg_crop bbox height width).2.1 - (process_ffmpeg_crop bbox height width).1
      = min ((quadCast (denorm (expand bbox (1 / 50)) height width)).2.1
              - (quadCast (denorm (expand bbox (1 / 50)) height width)).1)
            ((quadCast (denorm (expand bbox (1 / 50)) height width)).2.2.2
              - (quadCast (denorm (expand bbox (1 / 50)) height width)).2.2.1) := by
  refine ⟨rfl, ?_, ?_⟩
  · rw [process_ffmpeg_crop, to_square]
    dsimp only
    ring
  · rw [process_ffmpeg_crop, to_square]
    dsimp only
    ring
